import Mathlib

/-!
Shallow embedding of `src/services/bookService.ts` (library-service):
an in-memory book catalog with add / update / delete / borrow / return /
recommend operations, plus the `getPopularBooks` variant from the second
source file.

Modelling conventions:
* The catalog (the module-level `books` array) is passed explicitly as a
  `List Book`; every mutating operation returns the new catalog together
  with its result.  JS `throw` is modelled by an `Except`-style result
  component; since every `throw` in the source happens before any
  mutation, the error branches return the input catalog unchanged.
* Timestamps (`Date.now()`, `dueDate`) are integer milliseconds (`Int`);
  the source stores `dueDate` as an ISO string but only ever consumes it
  through `new Date(...).getTime()`, so the numeric value is what matters.
* `Math.random() * 10000 |> toFixed(0)` (the generated id in `addBook`)
  is modelled as an explicit `newId : String` oracle argument: the
  function is parametric in whatever string the generator yields.
* `Partial<Book>` is a structure of `Option` fields (`BookUpdate`);
  a `delete obj.f` followed by `Object.assign` becomes "ignore that
  component when merging".
-/

/-- A book record, after `src/models/bookModel`: `borrowerId` and `dueDate`
are optional properties (absent = `none`). -/
structure Book where
  id : String
  title : String
  author : String
  genre : String
  isBorrowed : Bool
  borrowerId : Option String
  dueDate : Option Int
deriving Repr, DecidableEq

/-- The error kinds the service throws (spec Sec. 7 names; the source
throws plain `Error`s whose messages distinguish exactly these cases). -/
inductive BookError where
  | validationError
  | notFoundError (id : String)
  | alreadyBorrowedError (id : String)
  | notBorrowedError (id : String)
  | wrongBorrowerError (id : String)
deriving Repr, DecidableEq

/-- The seed catalog: the module-level `books` array initializer
(lines 3-25 of `bookService.ts`). -/
def seedBooks : List Book :=
  [ { id := "1", title := "The Great Gatsby", author := "F. Scott Fitzgerald",
      genre := "Fiction", isBorrowed := false, borrowerId := none, dueDate := none },
    { id := "2", title := "1984", author := "George Orwell",
      genre := "Dystopian", isBorrowed := false, borrowerId := none, dueDate := none },
    { id := "3", title := "To Kill a Mockingbird", author := "Harper Lee",
      genre := "Classic", isBorrowed := false, borrowerId := none, dueDate := none } ]

/-- Apply `f` to the first element satisfying `p`, leaving the rest alone:
the effect of mutating the reference returned by `Array.prototype.find`. -/
def updateFirst (p : α → Bool) (f : α → α) : List α → List α
  | [] => []
  | x :: xs => if p x then f x :: xs else x :: updateFirst p f xs

/-- Remove the first element satisfying `p`:
the effect of `findIndex` + `splice(index, 1)`. -/
def eraseFirst (p : α → Bool) : List α → List α
  | [] => []
  | x :: xs => if p x then xs else x :: eraseFirst p xs

/-- `getAllBooks` (line 27): returns the whole catalog. -/
def getAllBooks (books : List Book) : List Book := books

/-- `addBook` (lines 51-70).  JS falsiness of the required string fields is
emptiness (the TS type already rules out `undefined`).  `newId` stands for
`(Math.random() * 10000).toFixed(0)`, a decimal string in "0".."10000"
with no uniqueness guarantee. -/
def addBook (books : List Book) (newId title author genre : String) :
    List Book × Except BookError Book :=
  if title = "" || author = "" || genre = "" then
    (books, .error .validationError)
  else
    let newBook : Book :=
      { id := newId, title := title, author := author, genre := genre,
        isBorrowed := false, borrowerId := none, dueDate := none }
    (books ++ [newBook], .ok newBook)

/-- The caller-supplied `Partial<Book>` of `updateBook`: every field of
`Book` optionally present. -/
structure BookUpdate where
  id : Option String := none
  title : Option String := none
  author : Option String := none
  genre : Option String := none
  isBorrowed : Option Bool := none
  borrowerId : Option (Option String) := none
  dueDate : Option (Option Int) := none
deriving Repr, DecidableEq

/-- The `delete safeUpdate.id / isBorrowed / borrowerId / dueDate` followed
by `Object.assign(book, safeUpdate)` of lines 97-108: only the unprotected
fields of the update are merged onto the record. -/
def applyUpdate (u : BookUpdate) (b : Book) : Book :=
  { b with
    title := u.title.getD b.title,
    author := u.author.getD b.author,
    genre := u.genre.getD b.genre }

/-- `updateBook` (lines 90-110). -/
def updateBook (books : List Book) (id : String) (u : BookUpdate) :
    List Book × Except BookError Book :=
  match books.find? (fun b => b.id == id) with
  | none => (books, .error (.notFoundError id))
  | some book =>
      (updateFirst (fun b => b.id == id) (applyUpdate u) books, .ok (applyUpdate u book))

/-- `deleteBook` (lines 124-131): removes the first record with the id,
reporting whether one was found. -/
def deleteBook (books : List Book) (id : String) : List Book × Bool :=
  if books.any (fun b => b.id == id) then
    (eraseFirst (fun b => b.id == id) books, true)
  else
    (books, false)

/-- Milliseconds per day, `24 * 60 * 60 * 1000`. -/
def msPerDay : Int := 24 * 60 * 60 * 1000

/-- The fields `borrowBook` writes on the found record (lines 153-159). -/
def borrowFields (borrowerId : String) (now : Int) (b : Book) : Book :=
  { b with
    isBorrowed := true,
    borrowerId := some borrowerId,
    dueDate := some (now + 14 * msPerDay) }

/-- `borrowBook` (lines 142-162).  `now` stands for `Date.now()`. -/
def borrowBook (books : List Book) (id borrowerId : String) (now : Int) :
    List Book × Except BookError Book :=
  match books.find? (fun b => b.id == id) with
  | none => (books, .error (.notFoundError id))
  | some book =>
      if book.isBorrowed then
        (books, .error (.alreadyBorrowedError id))
      else
        (updateFirst (fun b => b.id == id) (borrowFields borrowerId now) books,
         .ok (borrowFields borrowerId now book))

/-- `Math.ceil (a / b)` on integer millisecond quantities, `b > 0`:
`Int.ediv` is floor division for a positive divisor, and
`ceil (a / b) = floor ((a + b - 1) / b)`. -/
def ceilDivInt (a b : Int) : Int := Int.ediv (a + b - 1) b

/-- The penalty computation of `returnBook` (lines 196-209):
`daysLate = Math.ceil((now - dueDate) / msPerDay)`; a charge of 2 per day
beyond day 14, otherwise 0.  When `dueDate` is absent the source reads
`book.dueDate!` into `new Date`, giving `NaN`; both `NaN > 0` and
`NaN > 14` are false in JS, so the penalty stays 0. -/
def penaltyOf (dueDate : Option Int) (now : Int) : Int :=
  match dueDate with
  | none => 0
  | some due =>
      let daysLate := ceilDivInt (now - due) msPerDay
      if daysLate > 0 then
        if daysLate > 14 then (daysLate - 14) * 2 else 0
      else 0

/-- The field reset of `returnBook` (lines 211-214). -/
def clearBorrow (b : Book) : Book :=
  { b with isBorrowed := false, borrowerId := none, dueDate := none }

/-- `returnBook` (lines 177-218).  The result pairs the updated record with
the optional `penalty` field: `penalty > 0 ? { ...book, penalty } : book`
attaches it only when positive. -/
def returnBook (books : List Book) (id borrowerId : String) (now : Int) :
    List Book × Except BookError (Book × Option Int) :=
  match books.find? (fun b => b.id == id) with
  | none => (books, .error (.notFoundError id))
  | some book =>
      if !book.isBorrowed then
        (books, .error (.notBorrowedError id))
      else if book.borrowerId ≠ some borrowerId then
        (books, .error (.wrongBorrowerError id))
      else
        let penalty := penaltyOf book.dueDate now
        (updateFirst (fun b => b.id == id) clearBorrow books,
         .ok (clearBorrow book, if penalty > 0 then some penalty else none))

/-- `getRecommendations` (lines 230-232): `books.slice(0, 3)`. -/
def getRecommendations (books : List Book) : List Book :=
  books.take 3

/-- `getBorrowCountsLast6Months` (part_000, lines 31-37): the hardcoded
mock borrow-count table, in object-literal insertion order. -/
def getBorrowCountsLast6Months : List (String × Int) :=
  [("Fiction", 15), ("Dystopian", 25), ("Classic", 20)]

/-- Stable insertion step for sorting by count, descending: an element is
placed before the first strictly smaller count, matching the stable JS
`sort(([, a], [, b]) => b - a)`. -/
def insertByCountDesc (x : String × Int) : List (String × Int) → List (String × Int)
  | [] => [x]
  | y :: ys => if x.2 > y.2 then x :: y :: ys else y :: insertByCountDesc x ys

/-- Stable sort by count, descending. -/
def sortByCountDesc : List (String × Int) → List (String × Int)
  | [] => []
  | x :: xs => insertByCountDesc x (sortByCountDesc xs)

/-- `getPopularBooks` (part_000, lines 52-73): rank genres by the mock
table, keep the top 3, and for each collect up to 10 books of that genre,
appending per genre in rank order (the `forEach`/`push` loop). -/
def getPopularBooks (books : List Book) : List Book :=
  let topGenres :=
    ((sortByCountDesc getBorrowCountsLast6Months).take 3).map Prod.fst
  topGenres.foldl
    (fun acc genre => acc ++ (books.filter (fun b => b.genre == genre)).take 10)
    []

/-! ### Helper lemmas on `updateFirst` / `eraseFirst` -/

theorem find?_updateFirst {α} (p : α → Bool) (f : α → α) (hp : ∀ x, p (f x) = p x)
    (l : List α) : (updateFirst p f l).find? p = (l.find? p).map f := by
  induction l with
  | nil => rfl
  | cons x xs ih =>
    by_cases h : p x
    · rw [updateFirst, if_pos h, List.find?_cons_of_pos _ ((hp x).trans h),
        List.find?_cons_of_pos _ h, Option.map_some']
    · rw [updateFirst, if_neg h, List.find?_cons_of_neg _ h]
      have h' : ¬ p x = true := h
      rw [List.find?_cons_of_neg _ h', ih]

theorem getElem?_updateFirst_ne {α} (p : α → Bool) (f : α → α) (l : List α) (j : Nat)
    (hj : j ≠ l.findIdx p) : (updateFirst p f l)[j]? = l[j]? := by
  induction l generalizing j with
  | nil => rfl
  | cons x xs ih =>
    by_cases h : p x
    · rw [updateFirst, if_pos h]
      rw [List.findIdx_cons, h, cond_true] at hj
      match j with
      | 0 => exact absurd rfl hj
      | j + 1 => simp
    · rw [updateFirst, if_neg h]
      rw [List.findIdx_cons] at hj
      have h' : p x = false := by simpa using h
      rw [h', cond_false] at hj
      match j with
      | 0 => simp
      | j + 1 =>
        have : j ≠ xs.findIdx p := fun he => hj (by rw [he])
        simpa using ih j this

theorem getElem?_updateFirst_findIdx {α} (p : α → Bool) (f : α → α) (l : List α) (x : α)
    (hfind : l.find? p = some x) :
    (updateFirst p f l)[l.findIdx p]? = some (f x) := by
  induction l with
  | nil => exact absurd hfind (by simp)
  | cons y ys ih =>
    by_cases h : p y
    · rw [List.find?_cons_of_pos _ h, Option.some.injEq] at hfind
      rw [updateFirst, if_pos h, List.findIdx_cons, h, cond_true, hfind]
      simp
    · rw [List.find?_cons_of_neg _ h] at hfind
      have h' : p y = false := by simpa using h
      rw [updateFirst, if_neg h, List.findIdx_cons, h', cond_false]
      simpa using ih hfind

theorem all_updateFirst {α} (q p : α → Bool) (f : α → α)
    (hf : ∀ x, q x = true → q (f x) = true) (l : List α)
    (hl : l.all q = true) : (updateFirst p f l).all q = true := by
  induction l with
  | nil => rfl
  | cons x xs ih =>
    rw [List.all_cons, Bool.and_eq_true] at hl
    by_cases h : p x
    · rw [updateFirst, if_pos h, List.all_cons, Bool.and_eq_true]
      exact ⟨hf x hl.1, hl.2⟩
    · rw [updateFirst, if_neg h, List.all_cons, Bool.and_eq_true]
      exact ⟨hl.1, ih hl.2⟩

theorem all_eraseFirst {α} (q p : α → Bool) (l : List α)
    (hl : l.all q = true) : (eraseFirst p l).all q = true := by
  induction l with
  | nil => rfl
  | cons x xs ih =>
    rw [List.all_cons, Bool.and_eq_true] at hl
    by_cases h : p x
    · rw [eraseFirst, if_pos h]; exact hl.2
    · rw [eraseFirst, if_neg h, List.all_cons, Bool.and_eq_true]
      exact ⟨hl.1, ih hl.2⟩

/-! ### The record well-formedness invariant and the operation state machine -/

/-- A single record's well-formedness (spec Sec. 3): `borrowerId` and
`dueDate` are both present or both absent, and both are absent whenever
`isBorrowed` is false. -/
def bookWF (b : Book) : Bool :=
  (b.borrowerId.isSome == b.dueDate.isSome) &&
  (b.isBorrowed || (b.borrowerId.isNone && b.dueDate.isNone))

/-- The invariant over a whole catalog. -/
def catalogWF (books : List Book) : Bool := books.all bookWF

/-- One service operation together with its request data; the `now`
arguments stand for the wall-clock reads (`Date.now()`), the `newId` of
`add` for the random id draw. -/
inductive CatalogOp where
  | add (newId title author genre : String)
  | update (id : String) (u : BookUpdate)
  | del (id : String)
  | borrow (id borrowerId : String) (now : Int)
  | ret (id borrowerId : String) (now : Int)
deriving Repr

/-- The catalog after one operation; a throwing operation leaves the
catalog as it was (every `throw` in the source occurs before mutation). -/
def stepCatalog (books : List Book) : CatalogOp → List Book
  | .add newId t a g => (addBook books newId t a g).1
  | .update id u => (updateBook books id u).1
  | .del id => (deleteBook books id).1
  | .borrow id u now => (borrowBook books id u now).1
  | .ret id u now => (returnBook books id u now).1

/-- The catalog after a whole request sequence. -/
def runOps (books : List Book) (ops : List CatalogOp) : List Book :=
  ops.foldl stepCatalog books

theorem stepCatalog_wf (books : List Book) (op : CatalogOp)
    (h : catalogWF books = true) : catalogWF (stepCatalog books op) = true := by
  cases op with
  | add newId t a g =>
    by_cases hv : (t = "" || a = "" || g = "") = true
    · simpa [stepCatalog, addBook, hv] using h
    · rw [stepCatalog, addBook, if_neg hv]
      rw [catalogWF] at h ⊢
      rw [List.all_append, h, Bool.true_and]
      rfl
  | update id u =>
    cases hfind : books.find? (fun b => b.id == id) with
    | none => simpa [stepCatalog, updateBook, hfind] using h
    | some book =>
      rw [stepCatalog, updateBook, hfind]
      exact all_updateFirst _ _ _
        (fun x hx => by simpa [bookWF, applyUpdate] using hx) books h
  | del id =>
    by_cases hd : books.any (fun b => b.id == id) = true
    · rw [stepCatalog, deleteBook, if_pos hd]
      exact all_eraseFirst _ _ books h
    · simpa [stepCatalog, deleteBook, hd] using h
  | borrow id u now =>
    cases hfind : books.find? (fun b => b.id == id) with
    | none => simpa [stepCatalog, borrowBook, hfind] using h
    | some book =>
      by_cases hb : book.isBorrowed
      · simpa [stepCatalog, borrowBook, hfind, hb] using h
      · have hstep : stepCatalog books (.borrow id u now) =
            updateFirst (fun b => b.id == id) (borrowFields u now) books := by
          simp [stepCatalog, borrowBook, hfind, hb]
        rw [hstep]
        exact all_updateFirst _ _ _
          (fun x _ => by simp [bookWF, borrowFields]) books h
  | ret id u now =>
    cases hfind : books.find? (fun b => b.id == id) with
    | none => simpa [stepCatalog, returnBook, hfind] using h
    | some book =>
      by_cases hb : book.isBorrowed
      · by_cases hw : book.borrowerId ≠ some u
        · simpa [stepCatalog, returnBook, hfind, hb, hw] using h
        · have hbid : book.borrowerId = some u := not_not.mp hw
          have hstep : stepCatalog books (.ret id u now) =
              updateFirst (fun b => b.id == id) clearBorrow books := by
            simp [stepCatalog, returnBook, hfind, hb, hbid]
          rw [hstep]
          exact all_updateFirst _ _ _
            (fun x _ => by simp [bookWF, clearBorrow]) books h
      · simpa [stepCatalog, returnBook, hfind, hb] using h

theorem runOps_wf (ops : List CatalogOp) :
    ∀ books, catalogWF books = true → catalogWF (runOps books ops) = true := by
  induction ops with
  | nil => exact fun _ h => h
  | cons op ops ih =>
    intro books h
    exact ih (stepCatalog books op) (stepCatalog_wf books op h)

/-! ### Claim theorems -/

theorem penaltyOf_eq (due now : Int) :
    penaltyOf (some due) now =
      if 14 < ceilDivInt (now - due) msPerDay
      then (ceilDivInt (now - due) msPerDay - 14) * 2 else 0 := by
  simp only [penaltyOf]
  by_cases h1 : 0 < ceilDivInt (now - due) msPerDay
  · rw [if_pos h1]
  · rw [if_neg h1, if_neg (by omega)]

/-- C1: when `return(id, borrowerId)` succeeds (book found, borrowed,
recorded borrower matches), with `daysLate = ceil((now - dueDate)/1 day)`:
for `daysLate ≤ 14` the returned record carries no penalty field, and for
`daysLate > 14` it carries penalty `(daysLate - 14) * 2`. -/
theorem returnBook_penalty_spec (books : List Book) (id u : String) (now due : Int)
    (book : Book)
    (hfind : books.find? (fun b => b.id == id) = some book)
    (hb : book.isBorrowed = true)
    (hbw : book.borrowerId = some u)
    (hdue : book.dueDate = some due) :
    (ceilDivInt (now - due) msPerDay ≤ 14 →
      (returnBook books id u now).2 = .ok (clearBorrow book, none)) ∧
    (14 < ceilDivInt (now - due) msPerDay →
      (returnBook books id u now).2 =
        .ok (clearBorrow book, some ((ceilDivInt (now - due) msPerDay - 14) * 2))) := by
  have hres : (returnBook books id u now).2 =
      .ok (clearBorrow book,
           if penaltyOf book.dueDate now > 0
           then some (penaltyOf book.dueDate now) else none) := by
    simp [returnBook, hfind, hb, hbw]
  refine ⟨fun hle => ?_, fun hgt => ?_⟩
  · rw [hres, hdue, penaltyOf_eq, if_neg (by omega)]
  · rw [hres, hdue, penaltyOf_eq, if_pos hgt, if_pos (by omega)]

/-- C1 (witness): a concrete successful return 16 days past due pays
penalty `(16 - 14) * 2 = 4`. -/
theorem returnBook_penalty_spec_witness :
    (returnBook [{ id := "1", title := "T", author := "A", genre := "G",
                   isBorrowed := true, borrowerId := some "u", dueDate := some 0 }]
        "1" "u" (16 * msPerDay)).2 =
      .ok (clearBorrow { id := "1", title := "T", author := "A", genre := "G",
                         isBorrowed := true, borrowerId := some "u", dueDate := some 0 },
           some ((ceilDivInt (16 * msPerDay - 0) msPerDay - 14) * 2)) ∧
    (ceilDivInt (16 * msPerDay - 0) msPerDay - 14) * 2 = 4 :=
  ⟨(returnBook_penalty_spec
      [{ id := "1", title := "T", author := "A", genre := "G",
         isBorrowed := true, borrowerId := some "u", dueDate := some 0 }]
      "1" "u" (16 * msPerDay) 0 _ (by decide) rfl rfl rfl).2 (by decide),
   by decide⟩

/-- C2 (counterexample): the generated id is `(Math.random()*10000).toFixed(0)`,
with no uniqueness check; when the draw yields `"1"` — an attainable output —
the book returned by a valid `add` call reuses the id of a seed record, so
the returned id is not distinct from all existing ids. -/
theorem addBook_id_collision :
    (addBook seedBooks "1" "Dune" "Frank Herbert" "Science Fiction").2 =
      .ok { id := "1", title := "Dune", author := "Frank Herbert",
            genre := "Science Fiction", isBorrowed := false,
            borrowerId := none, dueDate := none } ∧
    "1" ∈ seedBooks.map Book.id := by
  refine ⟨rfl, ?_⟩
  simp [seedBooks]

/-- C2 (amended): for every `add` call with non-empty title, author and
genre, the returned book has `isBorrowed = false`, carries the id produced
by the random id generator (with no uniqueness guarantee), and is appended
to the catalog. -/
theorem addBook_spec (books : List Book) (newId t a g : String)
    (ht : t ≠ "") (ha : a ≠ "") (hg : g ≠ "") :
    (addBook books newId t a g).2 =
      .ok { id := newId, title := t, author := a, genre := g,
            isBorrowed := false, borrowerId := none, dueDate := none } ∧
    (addBook books newId t a g).1 =
      books ++ [{ id := newId, title := t, author := a, genre := g,
                  isBorrowed := false, borrowerId := none, dueDate := none }] := by
  rw [addBook, if_neg (by simp [ht, ha, hg])]
  exact ⟨rfl, rfl⟩

/-- C2 (witness): a concrete valid add call appends the new record. -/
theorem addBook_spec_witness :
    (addBook seedBooks "42" "Dune" "Frank Herbert" "Science Fiction").2 =
      .ok { id := "42", title := "Dune", author := "Frank Herbert",
            genre := "Science Fiction", isBorrowed := false,
            borrowerId := none, dueDate := none } ∧
    (addBook seedBooks "42" "Dune" "Frank Herbert" "Science Fiction").1 =
      seedBooks ++ [{ id := "42", title := "Dune", author := "Frank Herbert",
                      genre := "Science Fiction", isBorrowed := false,
                      borrowerId := none, dueDate := none }] :=
  addBook_spec seedBooks "42" "Dune" "Frank Herbert" "Science Fiction"
    (by decide) (by decide) (by decide)

/-- C3: when a book with the id exists, `update` returns the merged record,
leaves `id`, `isBorrowed`, `borrowerId` and `dueDate` untouched no matter
what the caller supplied for them, merges the supplied title/author/genre,
stores the merged record at the found position, and leaves every other
position of the catalog unchanged. -/
theorem updateBook_protected (books : List Book) (id : String) (u : BookUpdate)
    (book : Book)
    (hfind : books.find? (fun b => b.id == id) = some book) :
    (updateBook books id u).2 = .ok (applyUpdate u book) ∧
    (applyUpdate u book).id = book.id ∧
    (applyUpdate u book).isBorrowed = book.isBorrowed ∧
    (applyUpdate u book).borrowerId = book.borrowerId ∧
    (applyUpdate u book).dueDate = book.dueDate ∧
    (applyUpdate u book).title = u.title.getD book.title ∧
    (applyUpdate u book).author = u.author.getD book.author ∧
    (applyUpdate u book).genre = u.genre.getD book.genre ∧
    (updateBook books id u).1[books.findIdx (fun b => b.id == id)]? =
      some (applyUpdate u book) ∧
    ∀ j : Nat, j ≠ books.findIdx (fun b => b.id == id) →
      (updateBook books id u).1[j]? = books[j]? := by
  have h1 : (updateBook books id u).1 =
      updateFirst (fun b => b.id == id) (applyUpdate u) books := by
    simp [updateBook, hfind]
  have h2 : (updateBook books id u).2 = .ok (applyUpdate u book) := by
    simp [updateBook, hfind]
  refine ⟨h2, rfl, rfl, rfl, rfl, rfl, rfl, rfl, ?_, ?_⟩
  · rw [h1]
    exact getElem?_updateFirst_findIdx _ _ books book hfind
  · intro j hj
    rw [h1]
    exact getElem?_updateFirst_ne _ _ books j hj

/-- C3 (witness): a concrete update supplying every protected field leaves
them all unchanged while the title is merged. -/
theorem updateBook_protected_witness :
    (updateBook seedBooks "2"
        { id := some "99", title := some "Animal Farm", isBorrowed := some true,
          borrowerId := some (some "x"), dueDate := some (some 5) }).2 =
      .ok (applyUpdate
        { id := some "99", title := some "Animal Farm", isBorrowed := some true,
          borrowerId := some (some "x"), dueDate := some (some 5) }
        { id := "2", title := "1984", author := "George Orwell",
          genre := "Dystopian", isBorrowed := false, borrowerId := none, dueDate := none }) ∧
    (applyUpdate
        { id := some "99", title := some "Animal Farm", isBorrowed := some true,
          borrowerId := some (some "x"), dueDate := some (some 5) }
        { id := "2", title := "1984", author := "George Orwell",
          genre := "Dystopian", isBorrowed := false, borrowerId := none, dueDate := none }).isBorrowed = false ∧
    (updateBook seedBooks "2"
        { id := some "99", title := some "Animal Farm", isBorrowed := some true,
          borrowerId := some (some "x"), dueDate := some (some 5) }).1[0]? = seedBooks[0]? := by
  have h := updateBook_protected seedBooks "2"
    { id := some "99", title := some "Animal Farm", isBorrowed := some true,
      borrowerId := some (some "x"), dueDate := some (some 5) }
    { id := "2", title := "1984", author := "George Orwell",
      genre := "Dystopian", isBorrowed := false, borrowerId := none, dueDate := none }
    (by decide)
  exact ⟨h.1, h.2.2.1.trans rfl, h.2.2.2.2.2.2.2.2.2 0 (by decide)⟩

/-- C4: `borrow(id, borrowerId)` fails with `NotFoundError` when the id is
absent, fails with `AlreadyBorrowedError` when the found book is borrowed,
and otherwise sets `isBorrowed = true`, `borrowerId` to the argument and
`dueDate = now + 14 days` on the stored record, returning that record. -/
theorem borrowBook_spec (books : List Book) (id u : String) (now : Int) :
    (books.find? (fun b => b.id == id) = none →
      borrowBook books id u now = (books, .error (.notFoundError id))) ∧
    (∀ book, books.find? (fun b => b.id == id) = some book →
      (book.isBorrowed = true →
        borrowBook books id u now = (books, .error (.alreadyBorrowedError id))) ∧
      (book.isBorrowed = false →
        (borrowBook books id u now).2 = .ok (borrowFields u now book) ∧
        (borrowFields u now book).isBorrowed = true ∧
        (borrowFields u now book).borrowerId = some u ∧
        (borrowFields u now book).dueDate = some (now + 14 * msPerDay) ∧
        (borrowBook books id u now).1[books.findIdx (fun b => b.id == id)]? =
          some (borrowFields u now book))) := by
  refine ⟨fun h => by simp [borrowBook, h], fun book hfind => ⟨fun hb => ?_, fun hnb => ?_⟩⟩
  · simp [borrowBook, hfind, hb]
  · have h1 : (borrowBook books id u now).1 =
        updateFirst (fun b => b.id == id) (borrowFields u now) books := by
      simp [borrowBook, hfind, hnb]
    have h2 : (borrowBook books id u now).2 = .ok (borrowFields u now book) := by
      simp [borrowBook, hfind, hnb]
    refine ⟨h2, rfl, rfl, rfl, ?_⟩
    rw [h1]
    exact getElem?_updateFirst_findIdx _ _ books book hfind

/-- C4 (witness): borrowing an unknown id fails with `NotFoundError`;
borrowing seed book "1" records the borrower and the 14-day due date. -/
theorem borrowBook_spec_witness :
    borrowBook seedBooks "9" "u" 0 = (seedBooks, .error (.notFoundError "9")) ∧
    (borrowBook seedBooks "1" "u" 0).2 =
      .ok (borrowFields "u" 0
        { id := "1", title := "The Great Gatsby", author := "F. Scott Fitzgerald",
          genre := "Fiction", isBorrowed := false, borrowerId := none, dueDate := none }) := by
  refine ⟨(borrowBook_spec seedBooks "9" "u" 0).1 (by decide), ?_⟩
  exact (((borrowBook_spec seedBooks "1" "u" 0).2
    { id := "1", title := "The Great Gatsby", author := "F. Scott Fitzgerald",
      genre := "Fiction", isBorrowed := false, borrowerId := none, dueDate := none }
    (by decide)).2 rfl).1

/-- C5: `return(id, borrowerId)` fails with `NotFoundError` when the id is
absent, with `NotBorrowedError` when the found book is not borrowed, and
with `WrongBorrowerError` when the recorded borrower differs from the
argument. -/
theorem returnBook_errors (books : List Book) (id u : String) (now : Int) :
    (books.find? (fun b => b.id == id) = none →
      returnBook books id u now = (books, .error (.notFoundError id))) ∧
    (∀ book, books.find? (fun b => b.id == id) = some book →
      (book.isBorrowed = false →
        returnBook books id u now = (books, .error (.notBorrowedError id))) ∧
      (book.isBorrowed = true → book.borrowerId ≠ some u →
        returnBook books id u now = (books, .error (.wrongBorrowerError id)))) := by
  refine ⟨fun h => by simp [returnBook, h], fun book hfind => ⟨fun hnb => ?_, fun hb hne => ?_⟩⟩
  · simp [returnBook, hfind, hnb]
  · simp [returnBook, hfind, hb, hne]

/-- C5 (witness): an unknown id, an unborrowed seed book, and a book
borrowed by someone else each fail with the corresponding error. -/
theorem returnBook_errors_witness :
    returnBook seedBooks "9" "u" 0 = (seedBooks, .error (.notFoundError "9")) ∧
    returnBook seedBooks "1" "u" 0 = (seedBooks, .error (.notBorrowedError "1")) ∧
    returnBook [{ id := "1", title := "T", author := "A", genre := "G",
                  isBorrowed := true, borrowerId := some "v", dueDate := some 0 }]
        "1" "u" 0 =
      ([{ id := "1", title := "T", author := "A", genre := "G",
          isBorrowed := true, borrowerId := some "v", dueDate := some 0 }],
       .error (.wrongBorrowerError "1")) := by
  refine ⟨(returnBook_errors seedBooks "9" "u" 0).1 (by decide), ?_, ?_⟩
  · exact ((returnBook_errors seedBooks "1" "u" 0).2
      { id := "1", title := "The Great Gatsby", author := "F. Scott Fitzgerald",
        genre := "Fiction", isBorrowed := false, borrowerId := none, dueDate := none }
      (by decide)).1 rfl
  · exact ((returnBook_errors
      [{ id := "1", title := "T", author := "A", genre := "G",
         isBorrowed := true, borrowerId := some "v", dueDate := some 0 }] "1" "u" 0).2
      { id := "1", title := "T", author := "A", genre := "G",
        isBorrowed := true, borrowerId := some "v", dueDate := some 0 }
      (by decide)).2 rfl (by decide)

/-- C6: `recommend()` returns at most 3 books — exactly the records at the
first three catalog positions, in insertion order, and nothing beyond them.
The model function is total and pure, so it raises no error and leaves the
catalog untouched. -/
theorem getRecommendations_spec (books : List Book) :
    (getRecommendations books).length ≤ 3 ∧
    (∀ j : Nat, j < 3 → (getRecommendations books)[j]? = books[j]?) ∧
    (∀ j : Nat, 3 ≤ j → (getRecommendations books)[j]? = none) := by
  refine ⟨?_, fun j hj => ?_, fun j hj => ?_⟩
  · rw [getRecommendations, List.length_take]
    exact min_le_left _ _
  · rw [getRecommendations, List.getElem?_take, if_pos hj]
  · rw [getRecommendations]
    apply List.getElem?_eq_none
    rw [List.length_take]
    exact le_trans (min_le_left _ _) hj

/-- C6 (witness): on the seed catalog the recommendation list has at most
3 entries, agrees with the catalog at position 1, and is empty at 3. -/
theorem getRecommendations_spec_witness :
    (getRecommendations seedBooks).length ≤ 3 ∧
    (getRecommendations seedBooks)[1]? = seedBooks[1]? ∧
    (getRecommendations seedBooks)[3]? = none :=
  ⟨(getRecommendations_spec seedBooks).1,
   (getRecommendations_spec seedBooks).2.1 1 (by decide),
   (getRecommendations_spec seedBooks).2.2 3 (by decide)⟩

/-- C7: `popularByGenre()` ranks the hardcoded mock table descending by
count — Dystopian (25), then Classic (20), then Fiction (15) — keeps the
top 3 genres, and concatenates up to 10 books per genre in that rank
order. -/
theorem getPopularBooks_spec (books : List Book) :
    ((sortByCountDesc getBorrowCountsLast6Months).take 3).map Prod.fst =
      ["Dystopian", "Classic", "Fiction"] ∧
    getPopularBooks books =
      (books.filter (fun b => b.genre == "Dystopian")).take 10 ++
      ((books.filter (fun b => b.genre == "Classic")).take 10 ++
       (books.filter (fun b => b.genre == "Fiction")).take 10) := by
  have htop : ((sortByCountDesc getBorrowCountsLast6Months).take 3).map Prod.fst =
      ["Dystopian", "Classic", "Fiction"] := by decide
  refine ⟨htop, ?_⟩
  simp only [getPopularBooks]
  rw [htop]
  simp [List.append_assoc]

/-- C8: every catalog reachable from the 3-record seed catalog by any
sequence of add / update / delete / borrow / return operations contains
only books whose `borrowerId` and `dueDate` are both present or both
absent, with both absent whenever `isBorrowed` is false. -/
theorem catalog_invariant (ops : List CatalogOp) :
    ∀ b ∈ runOps seedBooks ops,
      b.borrowerId.isSome = b.dueDate.isSome ∧
      (b.isBorrowed = false → b.borrowerId = none ∧ b.dueDate = none) := by
  intro b hb
  have h := runOps_wf ops seedBooks (by decide)
  rw [catalogWF, List.all_eq_true] at h
  have hwf := h b hb
  rw [bookWF, Bool.and_eq_true] at hwf
  obtain ⟨h1, h2⟩ := hwf
  refine ⟨by simpa using h1, fun hfalse => ?_⟩
  rw [hfalse] at h2
  simpa [Option.isNone_iff_eq_none] using h2

/-- C8 (witness): after borrowing seed book "1", the stored record carries
a borrower and a due date together and is marked borrowed. -/
theorem catalog_invariant_witness :
    ({ id := "1", title := "The Great Gatsby", author := "F. Scott Fitzgerald",
       genre := "Fiction", isBorrowed := true, borrowerId := some "u",
       dueDate := some (0 + 14 * msPerDay) } : Book).borrowerId.isSome =
      ({ id := "1", title := "The Great Gatsby", author := "F. Scott Fitzgerald",
         genre := "Fiction", isBorrowed := true, borrowerId := some "u",
         dueDate := some (0 + 14 * msPerDay) } : Book).dueDate.isSome ∧
    (({ id := "1", title := "The Great Gatsby", author := "F. Scott Fitzgerald",
        genre := "Fiction", isBorrowed := true, borrowerId := some "u",
        dueDate := some (0 + 14 * msPerDay) } : Book).isBorrowed = false →
      ({ id := "1", title := "The Great Gatsby", author := "F. Scott Fitzgerald",
         genre := "Fiction", isBorrowed := true, borrowerId := some "u",
         dueDate := some (0 + 14 * msPerDay) } : Book).borrowerId = none ∧
      ({ id := "1", title := "The Great Gatsby", author := "F. Scott Fitzgerald",
         genre := "Fiction", isBorrowed := true, borrowerId := some "u",
         dueDate := some (0 + 14 * msPerDay) } : Book).dueDate = none) :=
  catalog_invariant [.borrow "1" "u" 0]
    { id := "1", title := "The Great Gatsby", author := "F. Scott Fitzgerald",
      genre := "Fiction", isBorrowed := true, borrowerId := some "u",
      dueDate := some (0 + 14 * msPerDay) }
    (by decide)

/-- C9: a successful `borrow(id, u)` immediately followed by
`return(id, u)` succeeds and restores the stored record to
`isBorrowed = false` with `borrowerId` and `dueDate` absent. -/
theorem borrow_return_roundtrip (books books1 : List Book) (b : Book)
    (id u : String) (now now2 : Int)
    (h : borrowBook books id u now = (books1, .ok b)) :
    (returnBook books1 id u now2).2 =
      .ok (clearBorrow b,
           if penaltyOf b.dueDate now2 > 0
           then some (penaltyOf b.dueDate now2) else none) ∧
    (returnBook books1 id u now2).1.find? (fun x => x.id == id) =
      some (clearBorrow b) ∧
    (clearBorrow b).isBorrowed = false ∧
    (clearBorrow b).borrowerId = none ∧
    (clearBorrow b).dueDate = none := by
  cases hfind : books.find? (fun x => x.id == id) with
  | none =>
    rw [borrowBook, hfind] at h
    simp at h
  | some book =>
    by_cases hb : book.isBorrowed
    · rw [borrowBook, hfind] at h
      simp [hb] at h
    · rw [borrowBook, hfind] at h
      simp only [hb, if_false, Bool.false_eq_true, Prod.mk.injEq, Except.ok.injEq] at h
      obtain ⟨hb1, hb2⟩ := h
      subst hb1; subst hb2
      have hfind1 : (updateFirst (fun x => x.id == id) (borrowFields u now) books).find?
          (fun x => x.id == id) = some (borrowFields u now book) := by
        rw [find?_updateFirst (fun x => x.id == id) (borrowFields u now)
              (fun x => rfl) books, hfind, Option.map_some']
      have hret : returnBook
          (updateFirst (fun x => x.id == id) (borrowFields u now) books) id u now2 =
          (updateFirst (fun x => x.id == id) clearBorrow
            (updateFirst (fun x => x.id == id) (borrowFields u now) books),
           .ok (clearBorrow (borrowFields u now book),
                if penaltyOf (borrowFields u now book).dueDate now2 > 0
                then some (penaltyOf (borrowFields u now book).dueDate now2) else none)) := by
        rw [returnBook, hfind1]
        simp [borrowFields]
      rw [hret]
      refine ⟨rfl, ?_, rfl, rfl, rfl⟩
      show (updateFirst (fun x => x.id == id) clearBorrow
          (updateFirst (fun x => x.id == id) (borrowFields u now) books)).find?
          (fun x => x.id == id) = some (clearBorrow (borrowFields u now book))
      rw [find?_updateFirst (fun x => x.id == id) clearBorrow (fun x => rfl) _,
        hfind1, Option.map_some']

/-- C9 (witness): borrowing then returning seed book "1" restores the
stored record with borrower and due date cleared. -/
theorem borrow_return_roundtrip_witness :
    (returnBook
        [{ id := "1", title := "The Great Gatsby", author := "F. Scott Fitzgerald",
           genre := "Fiction", isBorrowed := true, borrowerId := some "u",
           dueDate := some (0 + 14 * msPerDay) },
         { id := "2", title := "1984", author := "George Orwell",
           genre := "Dystopian", isBorrowed := false, borrowerId := none, dueDate := none },
         { id := "3", title := "To Kill a Mockingbird", author := "Harper Lee",
           genre := "Classic", isBorrowed := false, borrowerId := none, dueDate := none }]
        "1" "u" 0).2 =
      .ok (clearBorrow
        { id := "1", title := "The Great Gatsby", author := "F. Scott Fitzgerald",
          genre := "Fiction", isBorrowed := true, borrowerId := some "u",
          dueDate := some (0 + 14 * msPerDay) },
        if penaltyOf ({ id := "1", title := "The Great Gatsby",
                        author := "F. Scott Fitzgerald", genre := "Fiction",
                        isBorrowed := true, borrowerId := some "u",
                        dueDate := some (0 + 14 * msPerDay) } : Book).dueDate 0 > 0
        then some (penaltyOf ({ id := "1", title := "The Great Gatsby",
                                author := "F. Scott Fitzgerald", genre := "Fiction",
                                isBorrowed := true, borrowerId := some "u",
                                dueDate := some (0 + 14 * msPerDay) } : Book).dueDate 0)
        else none) ∧
    (returnBook
        [{ id := "1", title := "The Great Gatsby", author := "F. Scott Fitzgerald",
           genre := "Fiction", isBorrowed := true, borrowerId := some "u",
           dueDate := some (0 + 14 * msPerDay) },
         { id := "2", title := "1984", author := "George Orwell",
           genre := "Dystopian", isBorrowed := false, borrowerId := none, dueDate := none },
         { id := "3", title := "To Kill a Mockingbird", author := "Harper Lee",
           genre := "Classic", isBorrowed := false, borrowerId := none, dueDate := none }]
        "1" "u" 0).1.find? (fun x => x.id == "1") =
      some (clearBorrow
        { id := "1", title := "The Great Gatsby", author := "F. Scott Fitzgerald",
          genre := "Fiction", isBorrowed := true, borrowerId := some "u",
          dueDate := some (0 + 14 * msPerDay) }) ∧
    (clearBorrow
      { id := "1", title := "The Great Gatsby", author := "F. Scott Fitzgerald",
        genre := "Fiction", isBorrowed := true, borrowerId := some "u",
        dueDate := some (0 + 14 * msPerDay) }).isBorrowed = false ∧
    (clearBorrow
      { id := "1", title := "The Great Gatsby", author := "F. Scott Fitzgerald",
        genre := "Fiction", isBorrowed := true, borrowerId := some "u",
        dueDate := some (0 + 14 * msPerDay) }).borrowerId = none ∧
    (clearBorrow
      { id := "1", title := "The Great Gatsby", author := "F. Scott Fitzgerald",
        genre := "Fiction", isBorrowed := true, borrowerId := some "u",
        dueDate := some (0 + 14 * msPerDay) }).dueDate = none :=
  borrow_return_roundtrip seedBooks
    [{ id := "1", title := "The Great Gatsby", author := "F. Scott Fitzgerald",
       genre := "Fiction", isBorrowed := true, borrowerId := some "u",
       dueDate := some (0 + 14 * msPerDay) },
     { id := "2", title := "1984", author := "George Orwell",
       genre := "Dystopian", isBorrowed := false, borrowerId := none, dueDate := none },
     { id := "3", title := "To Kill a Mockingbird", author := "Harper Lee",
       genre := "Classic", isBorrowed := false, borrowerId := none, dueDate := none }]
    { id := "1", title := "The Great Gatsby", author := "F. Scott Fitzgerald",
      genre := "Fiction", isBorrowed := true, borrowerId := some "u",
      dueDate := some (0 + 14 * msPerDay) }
    "1" "u" 0 0 rfl

/-- C10: whenever `add`, `update`, `borrow` or `return` reports an error,
the catalog — the books list and every record in it — is exactly as it was
before the call (`delete` never raises: its model returns a Bool, with no
error component at all). -/
theorem ops_atomic_on_error (books : List Book) (newId t a g id u : String)
    (upd : BookUpdate) (now : Int) :
    (∀ e, (addBook books newId t a g).2 = .error e →
      (addBook books newId t a g).1 = books) ∧
    (∀ e, (updateBook books id upd).2 = .error e →
      (updateBook books id upd).1 = books) ∧
    (∀ e, (borrowBook books id u now).2 = .error e →
      (borrowBook books id u now).1 = books) ∧
    (∀ e, (returnBook books id u now).2 = .error e →
      (returnBook books id u now).1 = books) := by
  refine ⟨fun e he => ?_, fun e he => ?_, fun e he => ?_, fun e he => ?_⟩
  · by_cases hv : (t = "" || a = "" || g = "") = true
    · simp [addBook, hv]
    · rw [addBook, if_neg hv] at he
      simp at he
  · cases hfind : books.find? (fun b => b.id == id) with
    | none => simp [updateBook, hfind]
    | some book =>
      rw [updateBook, hfind] at he
      simp at he
  · cases hfind : books.find? (fun b => b.id == id) with
    | none => simp [borrowBook, hfind]
    | some book =>
      by_cases hb : book.isBorrowed
      · simp [borrowBook, hfind, hb]
      · rw [borrowBook, hfind] at he
        simp [hb] at he
  · cases hfind : books.find? (fun b => b.id == id) with
    | none => simp [returnBook, hfind]
    | some book =>
      by_cases hb : book.isBorrowed
      · by_cases hw : book.borrowerId = some u
        · rw [returnBook, hfind] at he
          simp [hb, hw] at he
        · simp [returnBook, hfind, hb, hw]
      · simp [returnBook, hfind, hb]

/-- C10 (witness): a failed validation on `add` and a failed lookup on
`borrow` both leave the seed catalog untouched. -/
theorem ops_atomic_on_error_witness :
    (addBook seedBooks "4" "" "A" "G").1 = seedBooks ∧
    (borrowBook seedBooks "9" "u" 0).1 = seedBooks :=
  ⟨(ops_atomic_on_error seedBooks "4" "" "A" "G" "9" "u" {} 0).1
      .validationError rfl,
   (ops_atomic_on_error seedBooks "4" "" "A" "G" "9" "u" {} 0).2.2.1
      (.notFoundError "9") rfl⟩
